import Mathlib

/-!
Shallow embedding of the video-journal application's store, media service and
orchestrator workflows, together with proofs of the specified properties.

Source files embedded:
- `src/store/videoStore.ts` : the zustand store's four operations over the
  in-memory `videos` list (the persistence middleware is a fire-and-forget
  mirror and does not affect the in-memory semantics embedded here).
- `src/services/videoService.ts` : `cropVideo` and `generateThumbnail`,
  which build an FFmpeg command string and return the output path on
  success; the external FFmpeg executor and the document directory are
  abstracted as an environment (`FFmpegEnv`).
- `src/hooks/useVideoOperations.ts` : `cropVideoMutation` (create workflow)
  and `editVideoMutation` (edit workflow); `Date.now()` readings are passed
  in as explicit clock values, thrown errors become a `failed` workflow
  state, and the gateway invocations performed are recorded in order in a
  `calls` field.
- `src/screens/VideoCreateScreen.tsx` : the zod form schema
  (`videoFormSchema`), the `handleCropVideo` callback, the dead
  `handleSaveVideo` callback, and the Save Video button wiring.
-/

/-- Structure `VideoItem` from `src/types/index.ts`: the sole persisted entity.
`thumbnailUri` is optional there (`thumbnailUri?: string`). -/
structure VideoItem where
  id : String
  uri : String
  name : String
  description : String
  duration : Int
  createdAt : Nat
  thumbnailUri : Option String
deriving DecidableEq, Repr

/-- Operation `addVideo` from `src/store/videoStore.ts`:
`videos: [video, ...state.videos]`. -/
def addVideo (video : VideoItem) (videos : List VideoItem) : List VideoItem :=
  video :: videos

/-- Operation `updateVideo` from `src/store/videoStore.ts`:
`videos.map(v => v.id === updatedVideo.id ? updatedVideo : v)`. -/
def updateVideo (updatedVideo : VideoItem) (videos : List VideoItem) : List VideoItem :=
  videos.map (fun video => if video.id = updatedVideo.id then updatedVideo else video)

/-- Operation `removeVideo` from `src/store/videoStore.ts`:
`videos.filter(v => v.id !== id)`. -/
def removeVideo (id : String) (videos : List VideoItem) : List VideoItem :=
  videos.filter (fun video => video.id != id)

/-- Operation `getVideoById` from `src/store/videoStore.ts`:
`videos.find(v => v.id === id)` (returns `undefined`, i.e. `none`, when absent). -/
def getVideoById (id : String) (videos : List VideoItem) : Option VideoItem :=
  videos.find? (fun video => video.id == id)

/-- Structure `CropParams` from `src/types/index.ts`. -/
structure CropParams where
  videoUri : String
  startTime : Int
  endTime : Int
  outputFileName : String
deriving DecidableEq, Repr

/-- Environment abstracting the two external collaborators of
`src/services/videoService.ts`: the FFmpeg executor (`FFmpegKit.execute`
followed by the `ReturnCode.isSuccess` check, collapsed to a success
boolean per command string) and `FileSystem.documentDirectory`.
Directory creation (`makeDirectoryAsync`) has no observable effect on the
returned locators and is elided. -/
structure FFmpegEnv where
  exec : String → Bool
  documentDirectory : String

/-- Service `cropVideo` from `src/services/videoService.ts`: builds the trim
command, runs FFmpeg, and returns the output path on success or throws
(`Except.error`) on failure. -/
def cropVideo (env : FFmpegEnv) (params : CropParams) : Except String String :=
  let outputDir := env.documentDirectory ++ "videos/"
  let outputPath := outputDir ++ params.outputFileName ++ ".mp4"
  let command := "-ss " ++ toString params.startTime ++ " -t "
    ++ toString (params.endTime - params.startTime) ++ " -i " ++ params.videoUri
    ++ " -c:v mpeg4 -c:a aac -b:v 2M -b:a 128k -strict experimental " ++ outputPath
  if env.exec command then Except.ok outputPath
  else Except.error "Video trimming process failed"

/-- Service `generateThumbnail` from `src/services/videoService.ts`: the thumbnail
path is named from a `Date.now()` reading, passed here as `now`. -/
def generateThumbnail (env : FFmpegEnv) (now : Nat) (videoUri : String) :
    Except String String :=
  let thumbnailDir := env.documentDirectory ++ "thumbnails/"
  let thumbnailPath := thumbnailDir ++ toString now ++ ".jpg"
  let command := "-i " ++ videoUri ++ " -ss 0 -vframes 1 " ++ thumbnailPath
  if env.exec command then Except.ok thumbnailPath
  else Except.error "Thumbnail creation process failed"

/-- Workflow outcome of one mutation: `SUCCESS` exposing the record, or
`FAILED` exposing the propagated error message. -/
inductive WorkflowState where
  | success (record : VideoItem)
  | failed (message : String)
deriving DecidableEq, Repr

/-- One gateway invocation performed by a workflow, recorded in order. -/
inductive GatewayCall where
  | trim (params : CropParams)
  | thumbnail (videoUri : String)
deriving DecidableEq, Repr

/-- Result of running one mutation of `useVideoOperations`:
final workflow state, the store's collection afterwards, and the gateway
calls performed during the run (in order). -/
structure MutationResult where
  state : WorkflowState
  videos : List VideoItem
  calls : List GatewayCall
deriving DecidableEq, Repr

/-- The `CropParams` built by `cropVideoMutation`:
`outputFileName = video_Date.now()`. -/
def createParams (now : Nat) (videoUri : String) (startTime endTime : Int) : CropParams :=
  { videoUri := videoUri, startTime := startTime, endTime := endTime,
    outputFileName := "video_" ++ toString now }

/-- The `CropParams` built by `editVideoMutation`:
`outputFileName = video_edit_Date.now()`. -/
def editParams (now : Nat) (videoUri : String) (startTime endTime : Int) : CropParams :=
  { videoUri := videoUri, startTime := startTime, endTime := endTime,
    outputFileName := "video_edit_" ++ toString now }

/-- Workflow `cropVideoMutation.mutationFn` from `src/hooks/useVideoOperations.ts`
(the create workflow). `now` is the `Date.now()` reading used for the
output file name, the new record's `id` and its `createdAt`; `thumbNow` is
the separate `Date.now()` reading inside `generateThumbnail`. On a thrown
error the store is left untouched and the workflow is `failed` with the
propagated message. -/
def cropVideoMutation (env : FFmpegEnv) (now thumbNow : Nat) (videoUri : String)
    (startTime endTime : Int) (name description : String)
    (videos : List VideoItem) : MutationResult :=
  let params := createParams now videoUri startTime endTime
  match cropVideo env params with
  | Except.error e =>
      { state := WorkflowState.failed e, videos := videos,
        calls := [GatewayCall.trim params] }
  | Except.ok croppedVideoUri =>
      match generateThumbnail env thumbNow croppedVideoUri with
      | Except.error e =>
          { state := WorkflowState.failed e, videos := videos,
            calls := [GatewayCall.trim params, GatewayCall.thumbnail croppedVideoUri] }
      | Except.ok thumbnailUri =>
          let newVideo : VideoItem :=
            { id := toString now, uri := croppedVideoUri, name := name,
              description := description, duration := endTime - startTime,
              createdAt := now, thumbnailUri := some thumbnailUri }
          { state := WorkflowState.success newVideo,
            videos := addVideo newVideo videos,
            calls := [GatewayCall.trim params, GatewayCall.thumbnail croppedVideoUri] }

/-- Workflow `editVideoMutation.mutationFn` from `src/hooks/useVideoOperations.ts`
(the edit workflow). Looks the target up first and throws `Video not found`
before any gateway call when absent; on success replaces the record via
spread `{...existingVideo, uri, name, description, duration, thumbnailUri}`,
preserving `id` and `createdAt`. -/
def editVideoMutation (env : FFmpegEnv) (now thumbNow : Nat) (videoId videoUri : String)
    (startTime endTime : Int) (name description : String)
    (videos : List VideoItem) : MutationResult :=
  match getVideoById videoId videos with
  | none =>
      { state := WorkflowState.failed "Video not found", videos := videos, calls := [] }
  | some existingVideo =>
      let params := editParams now videoUri startTime endTime
      match cropVideo env params with
      | Except.error e =>
          { state := WorkflowState.failed e, videos := videos,
            calls := [GatewayCall.trim params] }
      | Except.ok croppedVideoUri =>
          match generateThumbnail env thumbNow croppedVideoUri with
          | Except.error e =>
              { state := WorkflowState.failed e, videos := videos,
                calls := [GatewayCall.trim params, GatewayCall.thumbnail croppedVideoUri] }
          | Except.ok thumbnailUri =>
              let updatedVideo : VideoItem :=
                { existingVideo with
                  uri := croppedVideoUri
                  name := name
                  description := description
                  duration := endTime - startTime
                  thumbnailUri := some thumbnailUri }
              { state := WorkflowState.success updatedVideo,
                videos := updateVideo updatedVideo videos,
                calls := [GatewayCall.trim params, GatewayCall.thumbnail croppedVideoUri] }

/-- Schema `videoFormSchema` from `src/screens/VideoCreateScreen.tsx`:
zod `name: min(1).max(50)`, `description: max(500).optional()`. -/
def videoFormSchema (name description : String) : Bool :=
  decide (1 ≤ name.length ∧ name.length ≤ 50 ∧ description.length ≤ 500)

/-- Callback `handleCropVideo` from `src/screens/VideoCreateScreen.tsx` (lines
138-150): returns early when no video is selected, otherwise invokes the
create mutation directly — it performs no form validation. -/
def handleCropVideo (env : FFmpegEnv) (now thumbNow : Nat)
    (selectedVideoUri : Option String) (startTime endTime : Int)
    (name description : String) (videos : List VideoItem) : Option MutationResult :=
  match selectedVideoUri with
  | none => none
  | some uri =>
      some (cropVideoMutation env now thumbNow uri startTime endTime name description videos)

/-- Callback `handleSaveVideo` from `src/screens/VideoCreateScreen.tsx` (line 442):
validates the form and only then delegates to `handleCropVideo`. This
function is defined in the screen but never referenced by any UI element. -/
def handleSaveVideo (env : FFmpegEnv) (now thumbNow : Nat)
    (selectedVideoUri : Option String) (startTime endTime : Int)
    (name description : String) (videos : List VideoItem) : Option MutationResult :=
  if videoFormSchema name description then
    handleCropVideo env now thumbNow selectedVideoUri startTime endTime name description videos
  else none

/-- The Save Video button of `VideoCreateScreen` (line 418) is wired with
`onPress={handleCropVideo}` — directly to the non-validating callback, not
to `handleSaveVideo`. -/
def saveVideoButtonHandler := handleCropVideo

/-- Sequence of `add` calls folded in sequence over an initial collection (used for the
"sequence of n add calls" property). -/
def addAll (records : List VideoItem) (videos : List VideoItem) : List VideoItem :=
  records.foldl (fun acc r => addVideo r acc) videos

/-! ### Sample concrete values used by the closed witness theorems -/

/-- An environment whose FFmpeg executor succeeds on every command. -/
def envOk : FFmpegEnv := { exec := fun _ => true, documentDirectory := "file:///doc/" }

/-- An environment whose FFmpeg executor fails on every command. -/
def envFail : FFmpegEnv := { exec := fun _ => false, documentDirectory := "file:///doc/" }

/-- A sample stored record. -/
def vidA : VideoItem :=
  { id := "a1", uri := "file:///a.mp4", name := "A", description := "da",
    duration := 3, createdAt := 100, thumbnailUri := some "file:///ta.jpg" }

/-- A second sample stored record with a distinct id. -/
def vidB : VideoItem :=
  { id := "b2", uri := "file:///b.mp4", name := "B", description := "db",
    duration := 4, createdAt := 200, thumbnailUri := none }

/-- A replacement record carrying `vidA`'s id. -/
def vidA2 : VideoItem :=
  { id := "a1", uri := "file:///a2.mp4", name := "A2", description := "da2",
    duration := 9, createdAt := 101, thumbnailUri := none }

/-- A record whose id matches nothing in `[vidA, vidB]`. -/
def vidC : VideoItem :=
  { id := "c3", uri := "file:///c.mp4", name := "C", description := "dc",
    duration := 1, createdAt := 300, thumbnailUri := none }

/-! ### Helper lemmas shared by several claim proofs -/

/-- A successful `getVideoById` returns a member of the collection whose id
is the one searched for. -/
theorem getVideoById_eq_some {i : String} {v : List VideoItem} {r : VideoItem}
    (h : getVideoById i v = some r) : r ∈ v ∧ r.id = i := by
  unfold getVideoById at h
  refine ⟨List.mem_of_find?_eq_some h, ?_⟩
  have := List.find?_some h
  simpa using this

/-- `updateVideo` never changes the collection's length. -/
theorem updateVideo_length (u : VideoItem) (v : List VideoItem) :
    (updateVideo u v).length = v.length := by
  simp [updateVideo]

/-- Entries whose id matches are replaced by `updateVideo`. -/
theorem updateVideo_get_eq (u : VideoItem) (v : List VideoItem) (j : Nat)
    (hj : j < v.length) (hj' : j < (updateVideo u v).length)
    (h : (v.get ⟨j, hj⟩).id = u.id) :
    (updateVideo u v).get ⟨j, hj'⟩ = u := by
  have h' : v[j].id = u.id := by simpa [List.get_eq_getElem] using h
  simp [updateVideo, List.get_eq_getElem, h']

/-- Entries whose id does not match are untouched by `updateVideo`. -/
theorem updateVideo_get_ne (u : VideoItem) (v : List VideoItem) (j : Nat)
    (hj : j < v.length) (hj' : j < (updateVideo u v).length)
    (h : (v.get ⟨j, hj⟩).id ≠ u.id) :
    (updateVideo u v).get ⟨j, hj'⟩ = v.get ⟨j, hj⟩ := by
  have h' : ¬ v[j].id = u.id := by simpa [List.get_eq_getElem] using h
  simp [updateVideo, List.get_eq_getElem, h']

/-- When no record carries the target id, `updateVideo` is the identity. -/
theorem updateVideo_eq_of_forall_ne (u : VideoItem) (v : List VideoItem)
    (h : ∀ x ∈ v, x.id ≠ u.id) : updateVideo u v = v := by
  unfold updateVideo
  induction v with
  | nil => rfl
  | cons a t ih =>
      have ha : a.id ≠ u.id := h a (List.mem_cons_self a t)
      simp only [List.map_cons, if_neg ha]
      rw [ih (fun x hx => h x (List.mem_cons_of_mem a hx))]

/-- Folding `addVideo` reverses the sequence of added records onto the
initial collection. -/
theorem addAll_eq_reverse_append (rs : List VideoItem) (v : List VideoItem) :
    addAll rs v = rs.reverse ++ v := by
  induction rs generalizing v with
  | nil => simp [addAll]
  | cons a t ih =>
      simp only [addAll, List.foldl_cons, List.reverse_cons, List.append_assoc]
      have := ih (addVideo a v)
      simp only [addAll] at this
      rw [this]
      simp [addVideo]

/-- A successful `generateThumbnail` returns exactly the path it built from
the document directory and the clock reading. -/
theorem generateThumbnail_eq_ok {env : FFmpegEnv} {now : Nat} {videoUri t : String}
    (h : generateThumbnail env now videoUri = Except.ok t) :
    t = env.documentDirectory ++ "thumbnails/" ++ toString now ++ ".jpg" := by
  unfold generateThumbnail at h
  by_cases hc : env.exec ("-i " ++ videoUri ++ " -ss 0 -vframes 1 "
      ++ (env.documentDirectory ++ "thumbnails/" ++ toString now ++ ".jpg"))
  · simp only [hc, if_true] at h
    exact (Except.ok.injEq _ _).mp h.symm ▸ ((Except.ok.injEq _ _).mp h).symm
  · simp [hc] at h

/-- A string obtained by appending `.jpg` is never empty. -/
theorem append_jpg_ne_empty (s : String) : s ++ ".jpg" ≠ "" := by
  intro h
  have hl := congrArg String.length h
  rw [String.length_append, String.length_empty] at hl
  have h4 : ".jpg".length = 4 := rfl
  rw [h4] at hl
  omega

/-! ### Claim theorems -/

/-- C6: `addVideo r` prepends `r` to the collection leaving existing
records unchanged in their previous order, and any sequence of `add` calls
with distinct ids starting from the empty collection yields a collection
whose length is the number of calls, ordered newest-first (the reverse of
the call order). -/
theorem addVideo_prepends_newest_first (r : VideoItem) (v : List VideoItem)
    (rs : List VideoItem) (_hids : (rs.map VideoItem.id).Nodup) :
    addVideo r v = r :: v
    ∧ (addAll rs []).length = rs.length
    ∧ addAll rs [] = rs.reverse := by
  refine ⟨rfl, ?_, ?_⟩
  · rw [addAll_eq_reverse_append]; simp
  · rw [addAll_eq_reverse_append]; simp

/-- Witness for C6 at a concrete sequence of two adds with distinct ids. -/
theorem addVideo_prepends_newest_first_witness :
    ([vidA, vidB].map VideoItem.id).Nodup ∧ addAll [vidA, vidB] [] = [vidB, vidA] := by
  refine ⟨by decide, ?_⟩
  have h := addVideo_prepends_newest_first vidA [] [vidA, vidB] (by decide)
  rw [h.2.2]
  decide

/-- C7: `updateVideo r` keeps the collection's length; every position whose
record carries `r.id` is replaced by `r` in place and every other position
is unchanged; and when no record carries `r.id` the collection is left
entirely unchanged. -/
theorem updateVideo_replaces_in_place (r : VideoItem) (v : List VideoItem) :
    (updateVideo r v).length = v.length
    ∧ (∀ j (hj : j < v.length) (hj' : j < (updateVideo r v).length),
        ((v.get ⟨j, hj⟩).id = r.id → (updateVideo r v).get ⟨j, hj'⟩ = r)
        ∧ ((v.get ⟨j, hj⟩).id ≠ r.id → (updateVideo r v).get ⟨j, hj'⟩ = v.get ⟨j, hj⟩))
    ∧ ((∀ x ∈ v, x.id ≠ r.id) → updateVideo r v = v) := by
  refine ⟨updateVideo_length r v, ?_, updateVideo_eq_of_forall_ne r v⟩
  intro j hj hj'
  exact ⟨updateVideo_get_eq r v j hj hj', updateVideo_get_ne r v j hj hj'⟩

/-- Witness for C7: replacing the record with a matching id in place, and
the silent no-op when no id matches. -/
theorem updateVideo_replaces_in_place_witness :
    (updateVideo vidA2 [vidA, vidB]).get ⟨0, by decide⟩ = vidA2
    ∧ (updateVideo vidA2 [vidA, vidB]).get ⟨1, by decide⟩ = vidB
    ∧ updateVideo vidC [vidA, vidB] = [vidA, vidB] := by
  have h := updateVideo_replaces_in_place vidA2 [vidA, vidB]
  have h2 := updateVideo_replaces_in_place vidC [vidA, vidB]
  exact ⟨(h.2.1 0 (by decide) (by decide)).1 (by decide),
         (h.2.1 1 (by decide) (by decide)).2 (by decide),
         h2.2.2 (by decide)⟩

/-- C8: `removeVideo i` yields a sublist of the collection (remaining
records keep their previous order), a record survives removal exactly when
its id differs from `i`, removal of an absent id is a no-op, and
`getVideoById i` after `removeVideo i` always reports not-found. -/
theorem removeVideo_deletes_matching (i : String) (v : List VideoItem) :
    List.Sublist (removeVideo i v) v
    ∧ (∀ x, x ∈ removeVideo i v ↔ x ∈ v ∧ x.id ≠ i)
    ∧ ((∀ x ∈ v, x.id ≠ i) → removeVideo i v = v)
    ∧ getVideoById i (removeVideo i v) = none := by
  refine ⟨List.filter_sublist v, ?_, ?_, ?_⟩
  · intro x
    simp [removeVideo, List.mem_filter, bne_iff_ne]
  · intro h
    rw [removeVideo, List.filter_eq_self]
    intro a ha
    simpa [bne_iff_ne] using h a ha
  · rw [getVideoById, List.find?_eq_none]
    intro x hx
    have hmem := (List.mem_filter.mp hx).2
    simpa [bne_iff_ne] using hmem

/-- Witness for C8: concrete removal, the no-op case, and the
remove-then-lookup round trip. -/
theorem removeVideo_deletes_matching_witness :
    removeVideo "a1" [vidA, vidB] = [vidB]
    ∧ removeVideo "zz" [vidA, vidB] = [vidA, vidB]
    ∧ getVideoById "a1" (removeVideo "a1" [vidA, vidB]) = none := by
  refine ⟨by decide, ?_, ?_⟩
  · exact (removeVideo_deletes_matching "zz" [vidA, vidB]).2.2.1 (by decide)
  · exact (removeVideo_deletes_matching "a1" [vidA, vidB]).2.2.2

/-- C9: `getVideoById` on the empty collection is not-found; in general it
reports not-found exactly when no record carries the id, and any record it
returns is a member of the collection carrying the searched id. It is a
pure read (it returns a value and no modified collection). -/
theorem getVideoById_found_or_not (i : String) (v : List VideoItem) :
    getVideoById i ([] : List VideoItem) = none
    ∧ (getVideoById i v = none ↔ ∀ x ∈ v, x.id ≠ i)
    ∧ (∀ r, getVideoById i v = some r → r ∈ v ∧ r.id = i) := by
  refine ⟨rfl, ?_, fun r h => getVideoById_eq_some h⟩
  rw [getVideoById, List.find?_eq_none]
  constructor
  · intro h x hx
    simpa using h x hx
  · intro h x hx
    simpa using h x hx

/-- Witness for C9 at the empty collection and a concrete hit. -/
theorem getVideoById_found_or_not_witness :
    getVideoById "q" ([] : List VideoItem) = none
    ∧ (vidA ∈ [vidA, vidB] ∧ vidA.id = "a1") := by
  refine ⟨(getVideoById_found_or_not "q" []).1, ?_⟩
  exact (getVideoById_found_or_not "a1" [vidA, vidB]).2.2 vidA (by decide)

/-- C10: the store never enforces id uniqueness: adding a record whose id
is already present leaves at least two records with that id; `updateVideo`
replaces every position carrying the id; `removeVideo` deletes every record
carrying the id; and `getVideoById` returns the first record with the id in
collection order, which after a prepend is the most recently added one. -/
theorem store_allows_duplicate_ids (u r : VideoItem) (s : String) (v : List VideoItem)
    (h : ∃ x ∈ v, x.id = r.id) :
    2 ≤ (addVideo r v).countP (fun x => x.id == r.id)
    ∧ (∀ j (hj : j < v.length) (hj' : j < (updateVideo u v).length),
        (v.get ⟨j, hj⟩).id = u.id → (updateVideo u v).get ⟨j, hj'⟩ = u)
    ∧ (∀ x ∈ removeVideo s v, x.id ≠ s)
    ∧ getVideoById r.id (addVideo r v) = some r := by
  refine ⟨?_, fun j hj hj' hx => updateVideo_get_eq u v j hj hj' hx, ?_, ?_⟩
  · have h1 : 0 < v.countP (fun x => x.id == r.id) := by
      rw [List.countP_pos_iff]
      obtain ⟨x, hx, hid⟩ := h
      exact ⟨x, hx, by simpa using hid⟩
    have h2 : (addVideo r v).countP (fun x => x.id == r.id)
        = v.countP (fun x => x.id == r.id) + 1 := by
      simp [addVideo, List.countP_cons]
    omega
  · intro x hx
    have hmem := (List.mem_filter.mp hx).2
    simpa [bne_iff_ne] using hmem
  · rw [getVideoById, addVideo]
    exact List.find?_cons_of_pos _ (by simp)

/-- Witness for C10: duplicating `vidA`'s id via a second add, and lookup
returning the most recently added duplicate. -/
theorem store_allows_duplicate_ids_witness :
    2 ≤ (addVideo vidA2 [vidA]).countP (fun x => x.id == vidA2.id)
    ∧ getVideoById vidA2.id (addVideo vidA2 [vidA]) = some vidA2 := by
  have h := store_allows_duplicate_ids vidA2 vidA2 "a1" [vidA] ⟨vidA, by decide, by decide⟩
  exact ⟨h.1, h.2.2.2⟩

/-- C1: when both gateway calls of the create workflow succeed (the trim
call returning locator `cu`, then the thumbnail call returning locator
`tu`), exactly one new record is prepended to the store's collection, with
duration `endTime - startTime`, the freshly generated id `toString now` and
`createdAt = now` from the invocation's clock reading, the trimmed locator
`cu` as its uri, and the non-empty thumbnail locator `tu`. -/
theorem create_success_prepends_record (env : FFmpegEnv) (now thumbNow : Nat)
    (videoUri : String) (startTime endTime : Int) (nm ds : String)
    (videos : List VideoItem) (cu tu : String)
    (hcrop : cropVideo env (createParams now videoUri startTime endTime) = Except.ok cu)
    (hthumb : generateThumbnail env thumbNow cu = Except.ok tu) :
    ∃ newVideo : VideoItem,
      (cropVideoMutation env now thumbNow videoUri startTime endTime nm ds videos).videos
        = newVideo :: videos
      ∧ (cropVideoMutation env now thumbNow videoUri startTime endTime nm ds videos).state
        = WorkflowState.success newVideo
      ∧ newVideo.duration = endTime - startTime
      ∧ newVideo.id = toString now
      ∧ newVideo.createdAt = now
      ∧ newVideo.uri = cu
      ∧ newVideo.name = nm
      ∧ newVideo.description = ds
      ∧ newVideo.thumbnailUri = some tu
      ∧ tu ≠ "" := by
  have htu : tu ≠ "" := by
    rw [generateThumbnail_eq_ok hthumb]
    exact append_jpg_ne_empty _
  simp only [cropVideoMutation, hcrop, hthumb, addVideo]
  exact ⟨_, rfl, rfl, rfl, rfl, rfl, rfl, rfl, rfl, rfl, htu⟩

/-- Witness for C1: scenario A, `start = 0`, `end = 5`, title `Clip`,
empty description, on an all-succeeding gateway and an empty store. -/
theorem create_success_prepends_record_witness :
    cropVideo envOk (createParams 7 "file:///src.mp4" 0 5)
      = Except.ok "file:///doc/videos/video_7.mp4"
    ∧ generateThumbnail envOk 8 "file:///doc/videos/video_7.mp4"
      = Except.ok "file:///doc/thumbnails/8.jpg"
    ∧ ∃ newVideo : VideoItem,
        (cropVideoMutation envOk 7 8 "file:///src.mp4" 0 5 "Clip" "" []).videos
          = newVideo :: []
        ∧ (cropVideoMutation envOk 7 8 "file:///src.mp4" 0 5 "Clip" "" []).state
          = WorkflowState.success newVideo
        ∧ newVideo.duration = 5 - 0
        ∧ newVideo.id = toString 7
        ∧ newVideo.createdAt = 7
        ∧ newVideo.uri = "file:///doc/videos/video_7.mp4"
        ∧ newVideo.name = "Clip"
        ∧ newVideo.description = ""
        ∧ newVideo.thumbnailUri = some "file:///doc/thumbnails/8.jpg"
        ∧ "file:///doc/thumbnails/8.jpg" ≠ "" := by
  refine ⟨rfl, rfl, ?_⟩
  exact create_success_prepends_record envOk 7 8 "file:///src.mp4" 0 5 "Clip" "" []
    "file:///doc/videos/video_7.mp4" "file:///doc/thumbnails/8.jpg" rfl rfl

/-- C2: when the edit workflow's target id is found (as record `orig`) and
both gateway calls succeed, the workflow succeeds with a record that keeps
`orig`'s id and `createdAt` while taking its uri, title, description,
duration (`endTime - startTime`) and thumbnail locator from the new inputs
and gateway outputs; the collection keeps its length, every position whose
record carries the target id holds the replacement afterwards, and every
other position is unchanged. -/
theorem edit_success_preserves_identity (env : FFmpegEnv) (now thumbNow : Nat)
    (videoId videoUri : String) (startTime endTime : Int) (nm ds : String)
    (videos : List VideoItem) (orig : VideoItem) (cu tu : String)
    (hfound : getVideoById videoId videos = some orig)
    (hcrop : cropVideo env (editParams now videoUri startTime endTime) = Except.ok cu)
    (hthumb : generateThumbnail env thumbNow cu = Except.ok tu) :
    ∃ updated : VideoItem,
      (editVideoMutation env now thumbNow videoId videoUri startTime endTime nm ds videos).state
        = WorkflowState.success updated
      ∧ updated.id = orig.id
      ∧ updated.createdAt = orig.createdAt
      ∧ updated.uri = cu
      ∧ updated.name = nm
      ∧ updated.description = ds
      ∧ updated.duration = endTime - startTime
      ∧ updated.thumbnailUri = some tu
      ∧ (editVideoMutation env now thumbNow videoId videoUri startTime endTime nm ds videos).videos.length
          = videos.length
      ∧ ∀ j (hj : j < videos.length)
          (hj' : j < (editVideoMutation env now thumbNow videoId videoUri startTime endTime nm ds videos).videos.length),
          ((videos.get ⟨j, hj⟩).id ≠ videoId →
            (editVideoMutation env now thumbNow videoId videoUri startTime endTime nm ds videos).videos.get ⟨j, hj'⟩
              = videos.get ⟨j, hj⟩)
          ∧ ((videos.get ⟨j, hj⟩).id = videoId →
            (editVideoMutation env now thumbNow videoId videoUri startTime endTime nm ds videos).videos.get ⟨j, hj'⟩
              = updated) := by
  have hid : orig.id = videoId := (getVideoById_eq_some hfound).2
  have hres : editVideoMutation env now thumbNow videoId videoUri startTime endTime nm ds videos
      = { state :=
            WorkflowState.success
              { orig with
                uri := cu
                name := nm
                description := ds
                duration := endTime - startTime
                thumbnailUri := some tu }
          videos :=
            updateVideo
              { orig with
                uri := cu
                name := nm
                description := ds
                duration := endTime - startTime
                thumbnailUri := some tu }
              videos
          calls := [GatewayCall.trim (editParams now videoUri startTime endTime),
                    GatewayCall.thumbnail cu] } := by
    simp only [editVideoMutation, hfound, hcrop, hthumb]
  rw [hres]
  refine ⟨_, rfl, rfl, rfl, rfl, rfl, rfl, rfl, rfl, updateVideo_length _ _, ?_⟩
  intro j hj hj'
  refine ⟨fun hne => updateVideo_get_ne _ videos j hj hj' ?_,
          fun heq => updateVideo_get_eq _ videos j hj hj' ?_⟩
  · show (videos.get ⟨j, hj⟩).id ≠ orig.id
    rw [hid]; exact hne
  · show (videos.get ⟨j, hj⟩).id = orig.id
    rw [hid]; exact heq

/-- Witness for C2: scenario D at a concrete store holding `vidA` and
`vidB`, editing `vidA` with new metadata on an all-succeeding gateway. -/
theorem edit_success_preserves_identity_witness :
    getVideoById "a1" [vidA, vidB] = some vidA
    ∧ ∃ updated : VideoItem,
        (editVideoMutation envOk 7 8 "a1" "file:///a.mp4" 1 4 "New" "nd" [vidA, vidB]).state
          = WorkflowState.success updated
        ∧ updated.id = vidA.id
        ∧ updated.createdAt = vidA.createdAt
        ∧ updated.uri = "file:///doc/videos/video_edit_7.mp4"
        ∧ updated.name = "New"
        ∧ updated.description = "nd"
        ∧ updated.duration = 4 - 1
        ∧ updated.thumbnailUri = some "file:///doc/thumbnails/8.jpg"
        ∧ (editVideoMutation envOk 7 8 "a1" "file:///a.mp4" 1 4 "New" "nd" [vidA, vidB]).videos.length
            = ([vidA, vidB] : List VideoItem).length := by
  refine ⟨by decide, ?_⟩
  obtain ⟨updated, h1, h2, h3, h4, h5, h6, h7, h8, h9, _⟩ :=
    edit_success_preserves_identity envOk 7 8 "a1" "file:///a.mp4" 1 4 "New" "nd"
      [vidA, vidB] vidA "file:///doc/videos/video_edit_7.mp4" "file:///doc/thumbnails/8.jpg"
      (by decide) rfl rfl
  exact ⟨updated, h1, h2, h3, h4, h5, h6, h7, h8, h9⟩

/-- C3 (code bug evidence): the Save Video button of `VideoCreateScreen`
invokes `handleCropVideo`, which performs no validation, so a create
invocation with the empty title — rejected by `videoFormSchema` and by the
unreferenced `handleSaveVideo` — still invokes the gateway and stores a
record with an empty title: on a succeeding gateway and an empty store the
run performs two gateway calls and leaves one record in the store. -/
theorem create_title_validation_bypassed :
    videoFormSchema "" "" = false
    ∧ handleSaveVideo envOk 7 8 (some "file:///src.mp4") 0 5 "" "" [] = none
    ∧ saveVideoButtonHandler envOk 7 8 (some "file:///src.mp4") 0 5 "" "" []
        = some (cropVideoMutation envOk 7 8 "file:///src.mp4" 0 5 "" "" [])
    ∧ (cropVideoMutation envOk 7 8 "file:///src.mp4" 0 5 "" "" []).calls
        = [GatewayCall.trim (createParams 7 "file:///src.mp4" 0 5),
           GatewayCall.thumbnail "file:///doc/videos/video_7.mp4"]
    ∧ (cropVideoMutation envOk 7 8 "file:///src.mp4" 0 5 "" "" []).videos.length = 1 := by
  exact ⟨rfl, rfl, rfl, rfl, rfl⟩

/-- C4: an edit invocation whose target id matches no record fails with the
`Video not found` error, performs no gateway call, and leaves the store's
collection unchanged. -/
theorem edit_missing_id_fails_without_gateway (env : FFmpegEnv) (now thumbNow : Nat)
    (videoId videoUri : String) (startTime endTime : Int) (nm ds : String)
    (videos : List VideoItem)
    (h : getVideoById videoId videos = none) :
    editVideoMutation env now thumbNow videoId videoUri startTime endTime nm ds videos
      = { state := WorkflowState.failed "Video not found", videos := videos, calls := [] } := by
  simp only [editVideoMutation, h]

/-- Witness for C4: scenario C at a store holding only `vidA` and a target
id matching nothing. -/
theorem edit_missing_id_fails_without_gateway_witness :
    getVideoById "zz" [vidA] = none
    ∧ editVideoMutation envOk 7 8 "zz" "file:///x.mp4" 0 5 "T" "" [vidA]
        = { state := WorkflowState.failed "Video not found", videos := [vidA], calls := [] } :=
  ⟨rfl, edit_missing_id_fails_without_gateway envOk 7 8 "zz" "file:///x.mp4" 0 5 "T" "" [vidA] rfl⟩

/-- Gateway failure of a workflow run: either the trim call fails, or it
succeeds and the thumbnail call on its output fails. -/
def gatewayFails (env : FFmpegEnv) (thumbNow : Nat) (params : CropParams) : Prop :=
  (∃ e, cropVideo env params = Except.error e)
  ∨ (∃ cu e, cropVideo env params = Except.ok cu
      ∧ generateThumbnail env thumbNow cu = Except.error e)

/-- C5: when the gateway fails (trim or thumbnail) during a create
invocation, or during an edit invocation whose target id resolves (so that
the gateway is reached), the workflow ends failed with an error description
and the store's collection is exactly as it was before the invocation; each
half is stated under only its own workflow's failure hypothesis. -/
theorem gateway_failure_leaves_store_unchanged (env : FFmpegEnv) (now thumbNow : Nat)
    (videoId videoUri : String) (startTime endTime : Int) (nm ds : String)
    (videos : List VideoItem) :
    (gatewayFails env thumbNow (createParams now videoUri startTime endTime) →
      (cropVideoMutation env now thumbNow videoUri startTime endTime nm ds videos).videos = videos
      ∧ ∃ e, (cropVideoMutation env now thumbNow videoUri startTime endTime nm ds videos).state
          = WorkflowState.failed e)
    ∧ (∀ orig, getVideoById videoId videos = some orig →
        gatewayFails env thumbNow (editParams now videoUri startTime endTime) →
        (editVideoMutation env now thumbNow videoId videoUri startTime endTime nm ds videos).videos = videos
        ∧ ∃ e, (editVideoMutation env now thumbNow videoId videoUri startTime endTime nm ds videos).state
            = WorkflowState.failed e) := by
  constructor
  · intro hfc
    rcases hfc with ⟨e, he⟩ | ⟨cu, e, hok, he⟩
    · exact ⟨by simp only [cropVideoMutation, he], e,
             by simp only [cropVideoMutation, he]⟩
    · exact ⟨by simp only [cropVideoMutation, hok, he], e,
             by simp only [cropVideoMutation, hok, he]⟩
  · intro orig hfound hfe
    rcases hfe with ⟨e, he⟩ | ⟨cu, e, hok, he⟩
    · exact ⟨by simp only [editVideoMutation, hfound, he], e,
             by simp only [editVideoMutation, hfound, he]⟩
    · exact ⟨by simp only [editVideoMutation, hfound, hok, he], e,
             by simp only [editVideoMutation, hfound, hok, he]⟩

/-- Witness for C5: an always-failing gateway, exercising the create half
on an empty store and the edit half on a store holding `vidA` with the
target resolving to `vidA`. -/
theorem gateway_failure_leaves_store_unchanged_witness :
    gatewayFails envFail 8 (createParams 7 "file:///src.mp4" 0 5)
    ∧ (cropVideoMutation envFail 7 8 "file:///src.mp4" 0 5 "T" "" []).videos = []
    ∧ getVideoById "a1" [vidA] = some vidA
    ∧ (editVideoMutation envFail 7 8 "a1" "file:///src.mp4" 0 5 "T" "" [vidA]).videos = [vidA] := by
  have hc := (gateway_failure_leaves_store_unchanged envFail 7 8 "a1" "file:///src.mp4"
    0 5 "T" "" []).1 (Or.inl ⟨"Video trimming process failed", rfl⟩)
  have he := (gateway_failure_leaves_store_unchanged envFail 7 8 "a1" "file:///src.mp4"
    0 5 "T" "" [vidA]).2 vidA rfl (Or.inl ⟨"Video trimming process failed", rfl⟩)
  exact ⟨Or.inl ⟨"Video trimming process failed", rfl⟩, hc.1, rfl, he.1⟩
